import Mathlib

/-!
Verification development for the album-finder backend (src/app.py).

Shallow embedding conventions:
  * Python floats (timestamps, averages, ratios) are modelled as `ℚ`.
  * Python strings are Lean `String`; the Python string operations used by the
    code (`lower`, `strip`, `in`, `join`, `int(...)`) are re-implemented over
    the character list so that the kernel can evaluate them.
  * Python dicts returned by handlers become structures; `None` becomes
    `Option`.  A Python value that can be absent-or-falsy is modelled by the
    corresponding empty value ("" or none) where the code only tests truthiness.
  * Wall-clock strings (`datetime.now().isoformat()`) are threaded in as an
    explicit `now : String` parameter; `time.time()` as `now : ℚ`.
  * Calls to `random.randint(a, b)` are modelled by an explicit integer
    parameter standing for the value drawn, constrained to `[a, b]` in the
    theorems that speak about randomness.
-/

/-- Python substring containment over character lists: `pat in hay`. -/
def listInfixOf : List Char → List Char → Bool
  | pat, [] => pat.isEmpty
  | pat, c :: rest => pat.isPrefixOf (c :: rest) || listInfixOf pat rest

/-- Python `pat in hay` on strings. -/
def pyIn (pat hay : String) : Bool := listInfixOf pat.data hay.data

/-- Python `s.lower()` (ASCII, which is all the code compares against). -/
def pyLower (s : String) : String := String.mk (s.data.map Char.toLower)

/-- Python `s.strip()`. -/
def pyTrim (s : String) : String :=
  String.mk ((s.data.dropWhile Char.isWhitespace).reverse.dropWhile Char.isWhitespace |>.reverse)

/-- Python `', '.join(gs).lower()` as used on the genre list. -/
def pyJoinLower (gs : List String) : String :=
  pyLower (String.mk (((gs.map (fun g => g.data)).intersperse [',', ' ']).flatten))

/-- Python `int(q)` on a float: truncation toward zero. -/
def pyInt (q : ℚ) : ℤ := if q < 0 then q.ceil else q.floor

/-- Python f-string interpolation of a possibly-absent value. -/
def pyStr : Option String → String
  | none => "None"
  | some s => s

/-- Numeric value of a digit run, or `none` when empty or non-digits appear. -/
def digitsVal (cs : List Char) : Option ℕ :=
  if cs.isEmpty ∨ ¬ cs.all Char.isDigit then none
  else some (cs.foldl (fun acc c => acc * 10 + (c.toNat - 48)) 0)

/-- Python `int(s)` on a string: optional surrounding whitespace, optional
sign, then digits; `none` models the `ValueError` that the caller catches. -/
def pyParseInt (cs0 : List Char) : Option ℤ :=
  let cs := (cs0.dropWhile Char.isWhitespace).reverse.dropWhile Char.isWhitespace |>.reverse
  match cs with
  | '-' :: rest => (digitsVal rest).map (fun n => -(n : ℤ))
  | '+' :: rest => (digitsVal rest).map (fun n => (n : ℤ))
  | _ => (digitsVal cs).map (fun n => (n : ℤ))

/-- Python `defaultdict(int)` counter bump (`m[k] += 1`), as an insertion-ordered
association list, the iteration order a Python dict preserves. -/
def bumpCount (m : List (String × ℕ)) (k : String) : List (String × ℕ) :=
  if m.any (fun p => p.1 = k) then
    m.map (fun p => if p.1 = k then (p.1, p.2 + 1) else p)
  else m ++ [(k, 1)]

/-- Count stored for a key in the association-list counter (0 when absent). -/
def getCount (m : List (String × ℕ)) (k : String) : ℕ :=
  ((m.find? (fun p => p.1 = k)).map (fun p => p.2)).getD 0

/- ------------------------------------------------------------------
Rate limiter (src/app.py lines 62-87, `rate_limit` decorator body).
------------------------------------------------------------------ -/

abbrev ClientId := String

/-- Result of one admission check: the updated `rate_limit_tracker` map, the
admission decision, and the `retry_after` hint (0 when admitted). -/
structure RateResult where
  tracker : ClientId → List ℚ
  allowed : Bool
  retryAfter : ℚ

/-- Point update of the per-client tracker map. -/
def updateTracker (tr : ClientId → List ℚ) (ip : ClientId) (l : List ℚ) : ClientId → List ℚ :=
  fun c => if c = ip then l else tr c

/-- One call through the `rate_limit` decorator: drop timestamps with
`now - t >= window`, reject when the retained count reaches `max_requests`
(reporting `retry_after = window - (now - oldest)`), otherwise record `now`.
`headD 0` models the Python index `[0]`, taken only on the reject path. -/
def rate_limit (max_requests : ℕ) (window : ℚ) (tr : ClientId → List ℚ)
    (client_ip : ClientId) (now : ℚ) : RateResult :=
  let kept := (tr client_ip).filter (fun t => decide (now - t < window))
  if max_requests ≤ kept.length then
    { tracker := updateTracker tr client_ip kept
      allowed := false
      retryAfter := window - (now - kept.headD 0) }
  else
    { tracker := updateTracker tr client_ip (kept ++ [now])
      allowed := true
      retryAfter := 0 }

/-- Run a sequence of requests from one client through the limiter; the Bool
records whether every request in the sequence was admitted. -/
def runAdmits (m : ℕ) (w : ℚ) (tr : ClientId → List ℚ) (ip : ClientId) :
    List ℚ → (ClientId → List ℚ) × Bool
  | [] => (tr, true)
  | t :: rest =>
    let r := rate_limit m w tr ip t
    let restRun := runAdmits m w r.tracker ip rest
    (restRun.1, r.allowed && restRun.2)

/- ------------------------------------------------------------------
Music intelligence engine (src/app.py lines 89-978).
------------------------------------------------------------------ -/

/-- A top-track record as consumed by `analyze_audio_features`: the code reads
`popularity`, `duration_ms` (each skipped when `None`) and the truthiness of
`explicit`. -/
structure Track where
  popularity : Option ℚ
  duration_ms : Option ℚ
  explicit : Bool
deriving DecidableEq

/-- An album record as consumed by `analyze_audio_features`, which reads only
`release_date`. -/
structure Album where
  release_date : String
deriving DecidableEq

/-- The mood/complexity/recommendations triple produced by the classifier
(`_get_artist_persona` and `_get_genre_based_analysis`). -/
structure GenreAnalysis where
  mood : String
  complexity : ℕ
  recommendations : List String
deriving DecidableEq

/-- The `audio_features` sub-dict of the analysis result. -/
structure AudioFeatures where
  avg_popularity : ℚ
  avg_duration_ms : ℚ
  explicitFrac : ℚ
deriving DecidableEq

/-- The `mood_profile` sub-dict of the analysis result. -/
structure MoodProfile where
  primary_mood : String
  confidence : ℚ
deriving DecidableEq

/-- The dict returned by `analyze_audio_features` for a non-empty track list
(the wall-clock `analysis_timestamp` field is omitted from the embedding). -/
structure Analysis where
  audio_features : AudioFeatures
  mood_profile : MoodProfile
  complexity_score : ℕ
  mainstream_appeal : ℤ
  trend : String
  track_count : ℕ
  recommendations : List String
deriving DecidableEq

/-- Model of `_get_artist_persona` (src/app.py lines 183-412): ordered substring tests
against the lowercased artist name; `none` when no persona matches.  The
numeric parameters are accepted but never read, exactly as in the source. -/
def get_artist_persona (artist_lower : String) (avg_popularity explicitFrac : ℚ) :
    Option GenreAnalysis :=
  if pyIn "michael jackson" artist_lower then
    some { mood := "Legendary & Timeless", complexity := 95, recommendations := [
      "The undisputed King of Pop who redefined music, dance, and entertainment forever",
      "Revolutionary artistry that transcended racial barriers and cultural boundaries worldwide",
      "Every beat, every move, every note is pure musical history in motion"] }
  else if pyIn "taylor swift" artist_lower then
    some { mood := "Storytelling Mastermind", complexity := 85, recommendations := [
      "Swift\u0027s songwriting genius transforms personal experiences into universal anthems",
      "From country roots to pop domination - a fearless evolution that redefined success",
      "Each album era represents a new chapter in the most compelling musical autobiography ever written"] }
  else if pyIn "beyoncÃ©" artist_lower || pyIn "beyonce" artist_lower then
    some { mood := "Empowering Excellence", complexity := 90, recommendations := [
      "Queen B\u0027s vocal powerhouse delivery combined with fierce independence and artistic vision",
      "From Destiny\u0027s Child to solo reign - every performance is a masterclass in pure talent",
      "BeyoncÃ© doesn\u0027t just make music; she creates cultural movements and empowers generations"] }
  else if pyIn "drake" artist_lower then
    some { mood := "Melodic Vulnerability", complexity := 70, recommendations := [
      "The 6 God who popularized singing-rap and emotional transparency in hip-hop",
      "Drake\u0027s ability to be both tough and tender revolutionized what rap could express",
      "From Toronto to the world - every track feels like a personal conversation with greatness"] }
  else if pyIn "kendrick lamar" artist_lower then
    some { mood := "Conscious Genius", complexity := 95, recommendations := [
      "Kendrick\u0027s lyrical complexity and social consciousness define modern hip-hop excellence",
      "Each album is a conceptual masterpiece that challenges listeners and society alike",
      "The poet laureate of rap who proves hip-hop can be both street-smart and intellectually profound"] }
  else if pyIn "kanye west" artist_lower || pyIn "ye " artist_lower then
    some { mood := "Innovative Disruption", complexity := 88, recommendations := [
      "Yeezy\u0027s production genius and boundary-pushing artistry changed hip-hop forever",
      "Love him or hate him, Kanye\u0027s influence on music and culture is undeniable",
      "Every album era represents a complete reinvention of sound and artistic vision"] }
  else if pyIn "yeat" artist_lower then
    some { mood := "Hypnotic Innovation", complexity := 60, recommendations := [
      "Yeat\u0027s bell-laden beats and unique vocal style created a whole new wave in rap",
      "If you like the sound of success mixed with experimental trap, this is your artist",
      "The underground king who brought a fresh, addictive sound to mainstream attention"] }
  else if pyIn "travis scott" artist_lower then
    some { mood := "Psychedelic Energy", complexity := 75, recommendations := [
      "La Flame\u0027s atmospheric production creates immersive sonic experiences like no other",
      "Travis Scott concerts aren\u0027t just shows - they\u0027re transcendent musical journeys",
      "Auto-tuned vocals meet orchestral grandeur in the most epic way possible"] }
  else if pyIn "the beatles" artist_lower then
    some { mood := "Revolutionary Harmony", complexity := 100, recommendations := [
      "The Fab Four who invented modern pop music and changed the world forever",
      "Every song is a piece of musical DNA that influenced every artist who came after",
      "From \u0027Love Me Do\u0027 to \u0027Abbey Road\u0027 - the greatest musical journey in human history"] }
  else if pyIn "queen" artist_lower && pyIn "freddie" artist_lower then
    some { mood := "Theatrical Majesty", complexity := 90, recommendations := [
      "Freddie Mercury\u0027s operatic voice and Queen\u0027s genre-defying anthems are pure rock royalty",
      "Every song is a stadium-filling epic designed to make you feel invincible",
      "We Will Rock You, We Are The Champions - these aren\u0027t just songs, they\u0027re battle cries"] }
  else if pyIn "led zeppelin" artist_lower then
    some { mood := "Mystical Power", complexity := 85, recommendations := [
      "Zeppelin\u0027s heavy blues and mystical lyrics created the blueprint for hard rock",
      "Jimmy Page\u0027s guitar wizardry meets Robert Plant\u0027s banshee wail in perfect harmony",
      "Stairway to Heaven isn\u0027t just a song - it\u0027s a spiritual experience through sound"] }
  else if pyIn "whitney houston" artist_lower then
    some { mood := "Vocal Perfection", complexity := 95, recommendations := [
      "Whitney\u0027s voice was a force of nature that redefined what human vocals could achieve",
      "The gold standard for vocal excellence - every note was delivered with divine precision",
      "I Will Always Love You isn\u0027t just a cover - it\u0027s the definitive version that surpassed the original"] }
  else if pyIn "stevie wonder" artist_lower then
    some { mood := "Soulful Innovation", complexity := 90, recommendations := [
      "Stevie\u0027s musical genius spans soul, funk, pop, and R&B with unmatched creativity",
      "A one-man orchestra who plays every instrument and writes timeless classics",
      "Superstition, Sir Duke, Isn\u0027t She Lovely - each song is a masterpiece of joy and innovation"] }
  else if pyIn "billie eilish" artist_lower then
    some { mood := "Dark Pop Innovation", complexity := 70, recommendations := [
      "Billie\u0027s whispered vocals and dark aesthetics redefined what pop music could be",
      "A Gen Z icon who proves you don\u0027t need to be loud to make the biggest impact",
      "Bad Guy changed the game - minimalist production meets maximum artistic impact"] }
  else if pyIn "the weeknd" artist_lower then
    some { mood := "Nocturnal Seduction", complexity := 80, recommendations := [
      "Abel\u0027s dark R&B and cinematic production create the perfect soundtrack for midnight drives",
      "From mysterious mixtapes to Super Bowl headliner - the ultimate artistic evolution",
      "Blinding Lights and Can\u0027t Feel My Face prove he\u0027s master of both darkness and light"] }
  else if pyIn "dua lipa" artist_lower then
    some { mood := "Disco Revival Queen", complexity := 65, recommendations := [
      "Dua Lipa brought back disco-pop with modern sophistication and irresistible grooves",
      "Future Nostalgia wasn\u0027t just an album - it was a time machine to the dance floor",
      "Levitating, Don\u0027t Start Now - pure dancefloor euphoria with impeccable production"] }
  else if pyIn "daft punk" artist_lower then
    some { mood := "Robotic Perfection", complexity := 85, recommendations := [
      "The French robots who made electronic music cool and brought house to the masses",
      "Get Lucky, One More Time - timeless electronic anthems that transcend genres",
      "Their helmets hid their faces but revealed the future of music production"] }
  else if pyIn "skrillex" artist_lower then
    some { mood := "Bass-Dropping Chaos", complexity := 70, recommendations := [
      "Skrillex turned dubstep from underground noise into mainstream earthquake-inducing drops",
      "Scary Monsters brought the bass and changed electronic music forever",
      "When the beat drops, your soul ascends - this is organized musical chaos at its finest"] }
  else if pyIn "johnny cash" artist_lower then
    some { mood := "Outlaw Authenticity", complexity := 75, recommendations := [
      "The Man in Black whose deep voice and outlaw spirit defined authentic country music",
      "Johnny Cash\u0027s covers of modern songs proved that great music transcends time and genre",
      "Ring of Fire, Hurt - whether original or cover, Cash made every song his own"] }
  else if pyIn "radiohead" artist_lower then
    some { mood := "Experimental Melancholy", complexity := 95, recommendations := [
      "Radiohead\u0027s experimental genius challenges listeners while creating beautiful sonic landscapes",
      "OK Computer predicted our digital dystopia with haunting accuracy and gorgeous melodies",
      "Thom Yorke\u0027s falsetto paired with innovative production creates art that transcends music"] }
  else if pyIn "nirvana" artist_lower then
    some { mood := "Grunge Authenticity", complexity := 70, recommendations := [
      "Kurt Cobain\u0027s raw emotion and Nirvana\u0027s grunge revolution spoke for a generation",
      "Smells Like Teen Spirit wasn\u0027t just a hit - it was a generational battle cry",
      "The band that proved three chords and the truth could change the world"] }
  else none

/-- First (shadowed) definition of `_get_genre_based_analysis`
(src/app.py lines 414-567): ordered genre-substring families with secondary
numeric thresholds; recommendation strings interpolate the artist name. -/
def get_genre_based_analysis_v1 (genre_str : String) (avg_popularity explicitFrac : ℚ)
    (artist_name : Option String) : GenreAnalysis :=
  if ["r&b", "rnb", "soul", "neo-soul"].any (fun g => pyIn g genre_str) then
    { mood := "Smooth & Soulful", complexity := 70, recommendations := [
      pyStr artist_name ++ " crafts emotionally rich R&B with sophisticated vocal arrangements",
      "Expect smooth grooves and intimate storytelling that defines modern soul music",
      "Perfect for late-night listening with emphasis on vocal prowess and melodic depth"] }
  else if ["hip-hop", "rap", "trap", "drill"].any (fun g => pyIn g genre_str) then
    if explicitFrac > 7/10 then
      { mood := "Raw & Unfiltered", complexity := 65, recommendations := [
        pyStr artist_name ++ " delivers hard-hitting rap with uncompromising lyrical content",
        "Authentic street narratives with aggressive production and powerful delivery",
        "Not for the faint-hearted - expect intense themes and bold artistic expression"] }
    else
      { mood := "Lyrical & Conscious", complexity := 65, recommendations := [
        pyStr artist_name ++ " represents conscious rap with thoughtful wordplay and social commentary",
        "Intelligent hip-hop that balances mainstream appeal with lyrical substance",
        "Family-friendly rap that proves you can be profound without profanity"] }
  else if ["rock", "metal", "punk", "grunge"].any (fun g => pyIn g genre_str) then
    if pyIn "metal" genre_str || pyIn "punk" genre_str then
      { mood := "Intense & Aggressive", complexity := 75, recommendations := [
        pyStr artist_name ++ " unleashes raw power through crushing riffs and aggressive vocals",
        "High-energy music that channels rebellion and emotional intensity",
        "Not background music - demands your full attention and respect"] }
    else
      { mood := "Energetic & Anthemic", complexity := 60, recommendations := [
        pyStr artist_name ++ " delivers classic rock energy with memorable hooks and guitar-driven sound",
        "Stadium-worthy anthems that blend technical skill with mass appeal",
        "Perfect for road trips and moments when you need to feel invincible"] }
  else if ["pop", "dance-pop", "electropop"].any (fun g => pyIn g genre_str) then
    if avg_popularity > 80 then
      { mood := "Infectious & Chart-Topping", complexity := 35, recommendations := [
        pyStr artist_name ++ " masters the art of irresistible pop hooks and mainstream appeal",
        "Expertly crafted singles designed to dominate charts and playlists worldwide",
        "The soundtrack to your best memories - instantly recognizable and eternally catchy"] }
    else
      { mood := "Quirky & Alternative", complexity := 50, recommendations := [
        pyStr artist_name ++ " offers refreshing pop sensibilities with unique artistic vision",
        "Accessible yet distinctive - pop music for listeners who crave something different",
        "Hidden gems that deserve more recognition in the mainstream landscape"] }
  else if ["electronic", "edm", "techno", "house", "dubstep"].any (fun g => pyIn g genre_str) then
    { mood := "Euphoric & Atmospheric", complexity := 55, recommendations := [
      pyStr artist_name ++ " creates immersive electronic soundscapes perfect for both clubs and headphones",
      "Cutting-edge production with beats that make your pulse sync to the rhythm",
      "Digital artistry that transforms simple sounds into transcendent musical experiences"] }
  else if ["jazz", "blues", "swing"].any (fun g => pyIn g genre_str) then
    { mood := "Sophisticated & Timeless", complexity := 85, recommendations := [
      pyStr artist_name ++ " upholds jazz tradition while pushing musical boundaries with technical excellence",
      "Complex harmonies and improvisation showcase decades of musical evolution",
      "For connoisseurs who appreciate the intersection of technical skill and emotional expression"] }
  else if ["country", "folk", "americana"].any (fun g => pyIn g genre_str) then
    { mood := "Authentic & Storytelling", complexity := 45, recommendations := [
      pyStr artist_name ++ " weaves compelling narratives through authentic country musicianship",
      "Honest songwriting that captures the essence of human experience and rural life",
      "Traditional values meet modern production in music that speaks to the heart"] }
  else if ["indie", "alternative", "art"].any (fun g => pyIn g genre_str) then
    { mood := "Creative & Unconventional", complexity := 65, recommendations := [
      pyStr artist_name ++ " challenges musical conventions with innovative indie artistry",
      "Experimental approach that prioritizes artistic integrity over commercial success",
      "For listeners who value creativity and authenticity above mainstream trends"] }
  else if ["classical", "ambient", "new age", "instrumental"].any (fun g => pyIn g genre_str) then
    { mood := "Meditative & Cinematic", complexity := 80, recommendations := [
      pyStr artist_name ++ " creates expansive soundscapes that transport listeners to otherworldly realms",
      "Atmospheric compositions perfect for meditation, focus, and emotional reflection",
      "Instrumental mastery that speaks without words and heals without medicine"] }
  else
    { mood := "Eclectic & Versatile", complexity := 55, recommendations := [
      pyStr artist_name ++ " defies easy categorization with a diverse and dynamic musical approach",
      "Genre-blending artistry that keeps listeners guessing and always engaged",
      "Musical chameleon who adapts styles while maintaining a distinctive artistic voice"] }

/-- Second, live definition of `_get_genre_based_analysis`
(src/app.py lines 569-721), the one bound on the class after the first is
shadowed; in the source it differs from the first only by the missing
docstring. -/
def get_genre_based_analysis (genre_str : String) (avg_popularity explicitFrac : ℚ)
    (artist_name : Option String) : GenreAnalysis :=
  if ["r&b", "rnb", "soul", "neo-soul"].any (fun g => pyIn g genre_str) then
    { mood := "Smooth & Soulful", complexity := 70, recommendations := [
      pyStr artist_name ++ " crafts emotionally rich R&B with sophisticated vocal arrangements",
      "Expect smooth grooves and intimate storytelling that defines modern soul music",
      "Perfect for late-night listening with emphasis on vocal prowess and melodic depth"] }
  else if ["hip-hop", "rap", "trap", "drill"].any (fun g => pyIn g genre_str) then
    if explicitFrac > 7/10 then
      { mood := "Raw & Unfiltered", complexity := 65, recommendations := [
        pyStr artist_name ++ " delivers hard-hitting rap with uncompromising lyrical content",
        "Authentic street narratives with aggressive production and powerful delivery",
        "Not for the faint-hearted - expect intense themes and bold artistic expression"] }
    else
      { mood := "Lyrical & Conscious", complexity := 65, recommendations := [
        pyStr artist_name ++ " represents conscious rap with thoughtful wordplay and social commentary",
        "Intelligent hip-hop that balances mainstream appeal with lyrical substance",
        "Family-friendly rap that proves you can be profound without profanity"] }
  else if ["rock", "metal", "punk", "grunge"].any (fun g => pyIn g genre_str) then
    if pyIn "metal" genre_str || pyIn "punk" genre_str then
      { mood := "Intense & Aggressive", complexity := 75, recommendations := [
        pyStr artist_name ++ " unleashes raw power through crushing riffs and aggressive vocals",
        "High-energy music that channels rebellion and emotional intensity",
        "Not background music - demands your full attention and respect"] }
    else
      { mood := "Energetic & Anthemic", complexity := 60, recommendations := [
        pyStr artist_name ++ " delivers classic rock energy with memorable hooks and guitar-driven sound",
        "Stadium-worthy anthems that blend technical skill with mass appeal",
        "Perfect for road trips and moments when you need to feel invincible"] }
  else if ["pop", "dance-pop", "electropop"].any (fun g => pyIn g genre_str) then
    if avg_popularity > 80 then
      { mood := "Infectious & Chart-Topping", complexity := 35, recommendations := [
        pyStr artist_name ++ " masters the art of irresistible pop hooks and mainstream appeal",
        "Expertly crafted singles designed to dominate charts and playlists worldwide",
        "The soundtrack to your best memories - instantly recognizable and eternally catchy"] }
    else
      { mood := "Quirky & Alternative", complexity := 50, recommendations := [
        pyStr artist_name ++ " offers refreshing pop sensibilities with unique artistic vision",
        "Accessible yet distinctive - pop music for listeners who crave something different",
        "Hidden gems that deserve more recognition in the mainstream landscape"] }
  else if ["electronic", "edm", "techno", "house", "dubstep"].any (fun g => pyIn g genre_str) then
    { mood := "Euphoric & Atmospheric", complexity := 55, recommendations := [
      pyStr artist_name ++ " creates immersive electronic soundscapes perfect for both clubs and headphones",
      "Cutting-edge production with beats that make your pulse sync to the rhythm",
      "Digital artistry that transforms simple sounds into transcendent musical experiences"] }
  else if ["jazz", "blues", "swing"].any (fun g => pyIn g genre_str) then
    { mood := "Sophisticated & Timeless", complexity := 85, recommendations := [
      pyStr artist_name ++ " upholds jazz tradition while pushing musical boundaries with technical excellence",
      "Complex harmonies and improvisation showcase decades of musical evolution",
      "For connoisseurs who appreciate the intersection of technical skill and emotional expression"] }
  else if ["country", "folk", "americana"].any (fun g => pyIn g genre_str) then
    { mood := "Authentic & Storytelling", complexity := 45, recommendations := [
      pyStr artist_name ++ " weaves compelling narratives through authentic country musicianship",
      "Honest songwriting that captures the essence of human experience and rural life",
      "Traditional values meet modern production in music that speaks to the heart"] }
  else if ["indie", "alternative", "art"].any (fun g => pyIn g genre_str) then
    { mood := "Creative & Unconventional", complexity := 65, recommendations := [
      pyStr artist_name ++ " challenges musical conventions with innovative indie artistry",
      "Experimental approach that prioritizes artistic integrity over commercial success",
      "For listeners who value creativity and authenticity above mainstream trends"] }
  else if ["classical", "ambient", "new age", "instrumental"].any (fun g => pyIn g genre_str) then
    { mood := "Meditative & Cinematic", complexity := 80, recommendations := [
      pyStr artist_name ++ " creates expansive soundscapes that transport listeners to otherworldly realms",
      "Atmospheric compositions perfect for meditation, focus, and emotional reflection",
      "Instrumental mastery that speaks without words and heals without medicine"] }
  else
    { mood := "Eclectic & Versatile", complexity := 55, recommendations := [
      pyStr artist_name ++ " defies easy categorization with a diverse and dynamic musical approach",
      "Genre-blending artistry that keeps listeners guessing and always engaged",
      "Musical chameleon who adapts styles while maintaining a distinctive artistic voice"] }

/-- Model of `_analyze_genre_characteristics` (src/app.py lines 170-181): the artist
persona tier first, then the genre tier.  `avg_duration_min` is computed (with
default 3.5 for an empty duration list) but never consulted, as in the source. -/
def analyze_genre_characteristics (genre_str : String) (avg_popularity explicitFrac : ℚ)
    (durations : List ℚ) (artist_name : Option String) : GenreAnalysis :=
  let avg_duration_min : ℚ :=
    if durations.isEmpty then 35/10 else (durations.sum / durations.length) / 60000
  let artist_lower := match artist_name with
    | some n => pyLower n
    | none => ""
  match get_artist_persona artist_lower avg_popularity explicitFrac with
  | some persona => persona
  | none => get_genre_based_analysis genre_str avg_popularity explicitFrac artist_name

/-- Model of `analyze_audio_features` (src/app.py lines 108-168).  An empty track list
yields `none`, the empty dict the Python code returns.  Python float literals
1.2 and 0.8 are taken at their decimal value. -/
def analyze_audio_features (tracks : List Track) (genres : List String)
    (albums : List Album) (artist_name : Option String) : Option Analysis :=
  if tracks.isEmpty then none
  else
    let popularities := tracks.filterMap Track.popularity
    let durations := tracks.filterMap Track.duration_ms
    let explicit_count := (tracks.filter Track.explicit).length
    let total_tracks := tracks.length
    let avg_popularity : ℚ :=
      if popularities.isEmpty then 0 else popularities.sum / popularities.length
    let avg_duration : ℚ :=
      if durations.isEmpty then 0 else durations.sum / durations.length
    let explicitFrac : ℚ := if total_tracks = 0 then 0 else explicit_count / total_tracks
    let genre_str := pyJoinLower genres
    let genre_analysis :=
      analyze_genre_characteristics genre_str avg_popularity explicitFrac durations artist_name
    let mainstream_appeal := min (pyInt (avg_popularity * (12/10))) 100
    let album_years :=
      albums.filterMap (fun a => pyParseInt (a.release_date.data.takeWhile (fun c => c ≠ '-')))
    let trend := match album_years with
      | [] => "Stable"
      | y :: ys => if (ys.foldl max y) - (ys.foldl min y) > 5 then "Evolving" else "Stable"
    some { audio_features := { avg_popularity := avg_popularity,
                               avg_duration_ms := avg_duration,
                               explicitFrac := explicitFrac }
           mood_profile := { primary_mood := genre_analysis.mood, confidence := 8/10 }
           complexity_score := genre_analysis.complexity
           mainstream_appeal := mainstream_appeal
           trend := trend
           track_count := total_tracks
           recommendations := genre_analysis.recommendations }

/-- Model of `_calculate_discoverability` (src/app.py lines 884-898).  The two
`random.randint` draws become the parameters `fbRand` (range 60..90, drawn on
the no-analysis path) and `jitter` (range -10..15).  The `genres` parameter is
accepted but, as in the source, never read before the function returns. -/
def calculate_discoverability (audio_analysis : Option Analysis) (genres : List String)
    (fbRand jitter : ℤ) : ℤ :=
  match audio_analysis with
  | none => fbRand
  | some a =>
    let popularity := a.audio_features.avg_popularity
    let discovery_score := min (pyInt (popularity * (13/10))) 95
    let jittered := discovery_score + jitter
    max (min jittered 100) 30

/- ------------------------------------------------------------------
Collection store and analytics endpoints (src/app.py lines 1064-1429).
------------------------------------------------------------------ -/

/-- HTTP outcome of a handler, by status code family used in the source. -/
inductive HStatus
  | ok                  -- 200
  | badRequest          -- 400 validation failure
  | notFound            -- 404
  | conflict            -- 409
  | serviceUnavailable  -- 503, Spotify client missing
  | badGateway          -- 502, SpotifyException from the catalog
  | internalError       -- 500, unexpected exception
deriving DecidableEq

/-- One record of `user_preferences['liked_artists_data']`. -/
structure LikedArtist where
  artist_id : String
  artist_name : String
  genres : List String
  image : Option String
  liked_at : String
deriving DecidableEq

/-- One record of `user_preferences['saved_albums']`. -/
structure SavedAlbum where
  album_id : String
  album_name : String
  artist_name : Option String
  artist_id : Option String
  release_date : Option String
  image : Option String
  total_tracks : ℕ
  saved_at : String
deriving DecidableEq

/-- One record of `user_preferences['listening_history']`; unlike events carry
no genre list. -/
structure HistoryEvent where
  artist_id : String
  artist_name : String
  genres : Option (List String)
  timestamp : String
  action : String
deriving DecidableEq

/-- The module-level `user_preferences` dict: the id set, the record list, the
saved albums, the genre counter and the history list. -/
structure Prefs where
  liked_artists : Finset String
  liked_artists_data : List LikedArtist
  saved_albums : List SavedAlbum
  genre_preferences : List (String × ℕ)
  listening_history : List HistoryEvent
deriving DecidableEq

/-- The initial (process start) state: every store empty. -/
def initPrefs : Prefs :=
  { liked_artists := ∅
    liked_artists_data := []
    saved_albums := []
    genre_preferences := []
    listening_history := [] }

/-- Request body of `/api/heart-artist`; a missing or null field arrives as
the falsy value the handler tests for. -/
structure HeartInput where
  artist_id : String
  artist_name : String
  genres : List String
  image : Option String
deriving DecidableEq

/-- Model of `heart_artist` (src/app.py lines 1220-1280): validate, reject a duplicate
artist_id with 409, else append the record, add the id to the set, bump each
lowercased genre and append a history event. -/
def heart_artist (s : Prefs) (inp : HeartInput) (now : String) : Prefs × HStatus :=
  if inp.artist_id = "" ∨ inp.artist_name = "" then (s, .badRequest)
  else if s.liked_artists_data.any (fun a => a.artist_id = inp.artist_id) then (s, .conflict)
  else
    let artist_data : LikedArtist :=
      { artist_id := inp.artist_id, artist_name := inp.artist_name,
        genres := inp.genres, image := inp.image, liked_at := now }
    ({ liked_artists := insert inp.artist_id s.liked_artists
       liked_artists_data := s.liked_artists_data ++ [artist_data]
       saved_albums := s.saved_albums
       genre_preferences := inp.genres.foldl (fun m g => bumpCount m (pyLower g)) s.genre_preferences
       listening_history := s.listening_history ++
         [{ artist_id := inp.artist_id, artist_name := inp.artist_name,
            genres := some inp.genres, timestamp := now, action := "liked" }] },
     .ok)

/-- Model of `unlike_artist` (src/app.py lines 1362-1409): validate, filter the record
list, drop the id from the set, answer 404 when nothing was removed, else log
a history event.  The genre counter is never touched. -/
def unlike_artist (s : Prefs) (artist_id : String) (artist_name : Option String)
    (now : String) : Prefs × HStatus :=
  if artist_id = "" then (s, .badRequest)
  else
    let newData := s.liked_artists_data.filter (fun a => a.artist_id ≠ artist_id)
    let newSet := s.liked_artists.erase artist_id
    if newData.length = s.liked_artists_data.length then
      ({ s with liked_artists_data := newData, liked_artists := newSet }, .notFound)
    else
      let ev : HistoryEvent :=
        { artist_id := artist_id, artist_name := artist_name.getD "Unknown Artist",
          genres := none, timestamp := now, action := "unliked" }
      ({ s with liked_artists_data := newData, liked_artists := newSet,
                listening_history := s.listening_history ++ [ev] },
       .ok)

/-- Request body of `/api/save-album`. -/
structure SaveInput where
  album_id : String
  album_name : String
  artist_name : Option String
  artist_id : Option String
  release_date : Option String
  image : Option String
  total_tracks : ℕ
deriving DecidableEq

/-- Model of `save_album` (src/app.py lines 1282-1325): validate, reject a duplicate
album_id with 409, else append the record. -/
def save_album (s : Prefs) (inp : SaveInput) (now : String) : Prefs × HStatus :=
  let album_data : SavedAlbum :=
    { album_id := inp.album_id, album_name := inp.album_name,
      artist_name := inp.artist_name, artist_id := inp.artist_id,
      release_date := inp.release_date, image := inp.image,
      total_tracks := inp.total_tracks, saved_at := now }
  if inp.album_id = "" ∨ inp.album_name = "" then (s, .badRequest)
  else if s.saved_albums.any (fun a => a.album_id = inp.album_id) then (s, .conflict)
  else ({ s with saved_albums := s.saved_albums ++ [album_data] }, .ok)

/-- Model of `unsave_album` (src/app.py lines 1327-1360): validate, filter the saved
list by album_id, answer 404 when the length is unchanged. -/
def unsave_album (s : Prefs) (album_id : String) : Prefs × HStatus :=
  if album_id = "" then (s, .badRequest)
  else
    let newAlbums := s.saved_albums.filter (fun a => a.album_id ≠ album_id)
    if newAlbums.length = s.saved_albums.length then
      ({ s with saved_albums := newAlbums }, .notFound)
    else
      ({ s with saved_albums := newAlbums }, .ok)

/-- Model of `clear_collection` (src/app.py lines 1411-1429): empty every store. -/
def clear_collection (s : Prefs) : Prefs × HStatus :=
  (initPrefs, .ok)

/-- States reachable from process start through the collection operations the
claims quantify over (like, unlike, clear), with arbitrary inputs. -/
inductive Reachable : Prefs → Prop
  | init : Reachable initPrefs
  | heart (s : Prefs) (inp : HeartInput) (now : String) :
      Reachable s → Reachable (heart_artist s inp now).1
  | unlike (s : Prefs) (artist_id : String) (artist_name : Option String) (now : String) :
      Reachable s → Reachable (unlike_artist s artist_id artist_name now).1
  | clear (s : Prefs) : Reachable s → Reachable (clear_collection s).1

/- ------------------------------------------------------------------
Search endpoint analytics (src/app.py lines 1064-1091).
------------------------------------------------------------------ -/

/-- Behaviour of the external Spotify catalog during one search request; the
handler only branches on these cases.  On `found`, the remainder of the
handler builds the response and never touches `search_analytics`. -/
inductive CatalogOutcome
  | spotifyError     -- spotipy.exceptions.SpotifyException  -> 502
  | unexpectedError  -- any other exception                  -> 500
  | noArtists        -- empty artists.items                  -> 404
  | found            -- success path
deriving DecidableEq

/-- Analytics-relevant outcome of `search_albums` (src/app.py lines
1064-1191): the `search_analytics` counter after the request and the response
status.  The body is `none` when no JSON was supplied, otherwise the `query`
field (missing key arriving as the empty string). -/
structure SearchResult where
  analytics : List (String × ℕ)
  status : HStatus
deriving DecidableEq

/-- Model of `search_albums` up to its analytics effect: Spotify-client gate, body and
query validation, then `search_analytics[query.lower()] += 1` before any
catalog access, then the outcome-dependent response. -/
def search_albums (spAvailable : Bool) (analytics : List (String × ℕ))
    (body : Option String) (outcome : CatalogOutcome) : SearchResult :=
  if spAvailable = false then { analytics := analytics, status := .serviceUnavailable }
  else match body with
  | none => { analytics := analytics, status := .badRequest }
  | some rawQuery =>
    let query := pyTrim rawQuery
    if query = "" then { analytics := analytics, status := .badRequest }
    else if 100 < query.length then { analytics := analytics, status := .badRequest }
    else
      let analytics2 := bumpCount analytics (pyLower query)
      match outcome with
      | .spotifyError => { analytics := analytics2, status := .badGateway }
      | .unexpectedError => { analytics := analytics2, status := .internalError }
      | .noArtists => { analytics := analytics2, status := .notFound }
      | .found => { analytics := analytics2, status := .ok }

/- ------------------------------------------------------------------
Claims.
------------------------------------------------------------------ -/

/-- Claim C2, refuting theorem: `analyze_audio_features` applied to an empty
track list does not yield a populated result whose statistics fields are 0;
it yields no result at all (the Python code returns the empty dict). -/
theorem C2_counterexample :
    ¬ ∃ a : Analysis, analyze_audio_features [] [] [] none = some a ∧
        a.audio_features.avg_popularity = 0 ∧ a.audio_features.avg_duration_ms = 0 ∧
        a.audio_features.explicitFrac = 0 ∧ a.track_count = 0 := by
  rintro ⟨a, h, -⟩
  simp [analyze_audio_features] at h

/-- Claim C2, amended: calling summarize (`analyze_audio_features`) on an
empty track list yields an empty result (no analysis object at all), for any
genres, albums and artist name. -/
theorem C2_empty_tracks_empty_result (genres : List String) (albums : List Album)
    (artist_name : Option String) :
    analyze_audio_features [] genres albums artist_name = none := rfl

/-- Claim C4: for every genre list, average popularity, explicit ratio and
duration list, classifying artist name "Taylor Swift" hits the artist-name
tier first and returns mood "Storytelling Mastermind" with complexity 85,
short-circuiting the genre tier. -/
theorem C4_taylor_swift (genres : List String) (p e : ℚ) (durations : List ℚ) :
    (analyze_genre_characteristics (pyJoinLower genres) p e durations
        (some "Taylor Swift")).mood = "Storytelling Mastermind"
    ∧ (analyze_genre_characteristics (pyJoinLower genres) p e durations
        (some "Taylor Swift")).complexity = 85 :=
  ⟨rfl, rfl⟩

/-- Claim C7, refuting theorem: the shadowed first variant and the live second
variant of the genre-analysis routine never produce different results: no
input distinguishes them. -/
theorem C7_counterexample :
    ¬ ∃ (g : String) (p e : ℚ) (n : Option String),
        get_genre_based_analysis_v1 g p e n ≠ get_genre_based_analysis g p e n := by
  rintro ⟨g, p, e, n, hne⟩
  exact hne rfl

/-- Claim C7, amended: the source does contain two same-named genre-analysis
routines, the second definition shadowing the first, but the two do not
diverge: apart from a docstring they are identical, and on every input the
shadowed variant and the live variant produce equal results. -/
theorem C7_variants_agree (g : String) (p e : ℚ) (n : Option String) :
    get_genre_based_analysis_v1 g p e n = get_genre_based_analysis g p e n := rfl

/-- Claim C6: `unlike_artist` leaves the genre-preference counter exactly
unchanged in every case, and when no liked record carries the (non-empty)
artist id the call reports NotFound. -/
theorem C6_unlike_never_touches_genre_preferences (s : Prefs) (artist_id : String)
    (artist_name : Option String) (now : String) :
    ((unlike_artist s artist_id artist_name now).1).genre_preferences = s.genre_preferences
    ∧ (artist_id ≠ "" → (∀ a ∈ s.liked_artists_data, a.artist_id ≠ artist_id) →
        (unlike_artist s artist_id artist_name now).2 = .notFound) := by
  constructor
  · unfold unlike_artist
    split
    · rfl
    · dsimp only
      split <;> rfl
  · intro hid habs
    simp [unlike_artist, hid, habs]
    rw [if_pos habs]

/-- Witness for C6 at a concrete input: unliking "missing" on the empty store
returns NotFound and leaves the genre counter unchanged. -/
theorem C6_witness :
    ((unlike_artist initPrefs "missing" none "t0").1).genre_preferences
        = initPrefs.genre_preferences
    ∧ (unlike_artist initPrefs "missing" none "t0").2 = .notFound :=
  ⟨(C6_unlike_never_touches_genre_preferences initPrefs "missing" none "t0").1,
   (C6_unlike_never_touches_genre_preferences initPrefs "missing" none "t0").2
     (by decide) (by decide)⟩

/-- Claim C5: when a (validly identified) artist id is already present in the
liked-artists data, `heart_artist` answers Conflict and returns every store
exactly as it was. -/
theorem C5_duplicate_like_conflict (s : Prefs) (inp : HeartInput) (now : String)
    (hid : inp.artist_id ≠ "") (hname : inp.artist_name ≠ "")
    (hdup : ∃ a ∈ s.liked_artists_data, a.artist_id = inp.artist_id) :
    heart_artist s inp now = (s, .conflict) := by
  have h1 : ¬ (inp.artist_id = "" ∨ inp.artist_name = "") := by tauto
  have h2 : s.liked_artists_data.any (fun a => a.artist_id = inp.artist_id) = true := by
    rw [List.any_eq_true]
    obtain ⟨a, ha, he⟩ := hdup
    exact ⟨a, ha, by simp [he]⟩
  simp only [heart_artist, if_neg h1, h2]
  rfl

/-- Liked record held by the C5 witness state. -/
def c5Artist : LikedArtist :=
  { artist_id := "A1", artist_name := "Artist One",
    genres := ["pop"], image := none, liked_at := "t0" }

/-- Store already holding artist "A1", for the C5 witness. -/
def c5State : Prefs :=
  { liked_artists := {"A1"}
    liked_artists_data := [c5Artist]
    saved_albums := []
    genre_preferences := [("pop", 1)]
    listening_history := [] }

/-- Witness for C5: a second like of "A1" on a store already holding "A1"
conflicts and changes nothing. -/
theorem C5_witness :
    heart_artist c5State
        { artist_id := "A1", artist_name := "Artist One", genres := ["pop"], image := none }
        "t1"
      = (c5State, .conflict) :=
  C5_duplicate_like_conflict _ _ _ (by decide) (by decide)
    ⟨c5Artist, by simp [c5State], by decide⟩

/-- Starting state used by the C3 counterexample: album "A" already saved. -/
def c3State : Prefs :=
  { initPrefs with
    saved_albums := [{ album_id := "A", album_name := "First",
                       artist_name := none, artist_id := none, release_date := none,
                       image := none, total_tracks := 9, saved_at := "t0" }] }

/-- Claim C3, refuting theorem: starting from a store that already holds album
id "A", saving "A" again (Conflict, no-op) and then unsaving "A" removes the
pre-existing record, so the saved-albums collection does not return to its
prior value. -/
theorem C3_counterexample :
    ((unsave_album (save_album c3State
        { album_id := "A", album_name := "Second", artist_name := none,
          artist_id := none, release_date := none, image := none,
          total_tracks := 3 } "t1").1 "A").1).saved_albums
      ≠ c3State.saved_albums := by
  decide

/-- Claim C3, amended: when no record with the given album id is saved yet,
`save_album` followed by `unsave_album` on that id leaves the saved-albums
collection exactly as before the pair of calls. -/
theorem C3_roundtrip (s : Prefs) (inp : SaveInput) (now : String)
    (hfresh : ∀ a ∈ s.saved_albums, a.album_id ≠ inp.album_id) :
    ((unsave_album (save_album s inp now).1 inp.album_id).1).saved_albums
      = s.saved_albums := by
  have hfilter : s.saved_albums.filter (fun a => a.album_id ≠ inp.album_id)
      = s.saved_albums :=
    List.filter_eq_self.mpr (fun a ha => by simpa using hfresh a ha)
  by_cases hv : inp.album_id = "" ∨ inp.album_name = ""
  · have hsave : (save_album s inp now).1 = s := by
      simp only [save_album, if_pos hv]
    rw [hsave]
    by_cases hid : inp.album_id = ""
    · simp [unsave_album, hid]
    · simp only [unsave_album, if_neg hid]
      rw [hfilter, if_pos rfl]
  · push_neg at hv
    have hany : s.saved_albums.any (fun a => a.album_id = inp.album_id) = false := by
      rw [List.any_eq_false]
      intro a ha
      simpa using hfresh a ha
    have hsave : (save_album s inp now).1
        = { s with saved_albums := s.saved_albums ++
            [{ album_id := inp.album_id, album_name := inp.album_name,
               artist_name := inp.artist_name, artist_id := inp.artist_id,
               release_date := inp.release_date, image := inp.image,
               total_tracks := inp.total_tracks, saved_at := now }] } := by
      simp only [save_album, if_neg (by tauto : ¬ (inp.album_id = "" ∨ inp.album_name = "")), hany]
      rfl
    rw [hsave]
    simp only [unsave_album, if_neg hv.1]
    rw [List.filter_append]
    simp only [List.filter_cons, List.filter_nil]
    rw [hfilter]
    simp

/-- Witness for C3 at a concrete input: save then unsave album "A" on the
empty store returns the saved-albums list to empty. -/
theorem C3_witness :
    ((unsave_album (save_album initPrefs
        { album_id := "A", album_name := "Name", artist_name := none,
          artist_id := none, release_date := none, image := none,
          total_tracks := 3 } "t0").1 "A").1).saved_albums
      = initPrefs.saved_albums :=
  C3_roundtrip initPrefs _ "t0" (by simp [initPrefs])

/-- Bumping a key raises its stored count by exactly one. -/
theorem getCount_bumpCount (m : List (String × ℕ)) (k : String) :
    getCount (bumpCount m k) k = getCount m k + 1 := by
  induction m with
  | nil => simp [bumpCount, getCount]
  | cons p rest ih =>
    obtain ⟨a, n⟩ := p
    by_cases hak : a = k
    · subst hak
      simp [bumpCount, getCount, List.find?]
    · have hstep : bumpCount ((a, n) :: rest) k = (a, n) :: bumpCount rest k := by
        by_cases hr : rest.any (fun p => p.1 = k) = true
        · simp [bumpCount, hak, hr]
        · simp [bumpCount, hak, hr]
      rw [hstep]
      have h1 : getCount ((a, n) :: bumpCount rest k) k = getCount (bumpCount rest k) k := by
        simp [getCount, List.find?, hak]
      have h2 : getCount ((a, n) :: rest) k = getCount rest k := by
        simp [getCount, List.find?, hak]
      rw [h1, h2, ih]

/-- Bumping a key always changes the counter store. -/
theorem bumpCount_ne (m : List (String × ℕ)) (k : String) : bumpCount m k ≠ m := by
  intro h
  have hc := getCount_bumpCount m k
  rw [h] at hc
  omega

/-- Claim C10: with the Spotify client available and a query that passes
validation, the analytics counter for the lowercased stripped query is bumped
no matter how the catalog lookup turns out afterwards - so a search that then
fails (catalog error, no artists) has still changed the analytics store. -/
theorem C10_analytics_bumped_before_catalog (analytics : List (String × ℕ)) (q : String)
    (outcome : CatalogOutcome)
    (h1 : pyTrim q ≠ "") (h2 : (pyTrim q).length ≤ 100) :
    (search_albums true analytics (some q) outcome).analytics
        = bumpCount analytics (pyLower (pyTrim q))
    ∧ (search_albums true analytics (some q) outcome).analytics ≠ analytics := by
  have hng : ¬ (100 < (pyTrim q).length) := by omega
  have heq : (search_albums true analytics (some q) outcome).analytics
      = bumpCount analytics (pyLower (pyTrim q)) := by
    cases outcome <;> simp [search_albums, h1, hng]
  exact ⟨heq, heq ▸ bumpCount_ne _ _⟩

/-- Witness for C10: a valid query "Adele" with a failed lookup (no artists,
404) still bumps the empty analytics store. -/
theorem C10_witness :
    (search_albums true [] (some "Adele") .noArtists).analytics
        = bumpCount [] (pyLower (pyTrim "Adele"))
    ∧ (search_albums true [] (some "Adele") .noArtists).analytics ≠ [] :=
  C10_analytics_bumped_before_catalog [] "Adele" .noArtists (by decide) (by decide)

/-- Claim C8: the classifier output is a pure function of artist name, genre
string, popularity and explicit ratio (the duration list it also receives
cannot influence it, and it consults no random source), while the one random
effect in the engine - the jitter inside `_calculate_discoverability` - only
ever yields a score in the fixed band 30..100 given draws within the
documented `randint` ranges. -/
theorem C8_classifier_pure_jitter_bounded
    (genre_str : String) (p e : ℚ) (d1 d2 : List ℚ) (artist_name : Option String)
    (analysis : Option Analysis) (genres : List String) (fbRand jitter : ℤ)
    (hfb1 : 60 ≤ fbRand) (hfb2 : fbRand ≤ 90)
    (hj1 : -10 ≤ jitter) (hj2 : jitter ≤ 15) :
    analyze_genre_characteristics genre_str p e d1 artist_name
        = analyze_genre_characteristics genre_str p e d2 artist_name
    ∧ 30 ≤ calculate_discoverability analysis genres fbRand jitter
    ∧ calculate_discoverability analysis genres fbRand jitter ≤ 100 := by
  refine ⟨rfl, ?_, ?_⟩
  · cases analysis with
    | none => simp only [calculate_discoverability]; omega
    | some a =>
      simp only [calculate_discoverability]
      exact le_max_right _ _
  · cases analysis with
    | none => simp only [calculate_discoverability]; omega
    | some a =>
      simp only [calculate_discoverability]
      exact max_le (min_le_right _ _) (by norm_num)

/-- Witness for C8 at concrete draws: fallback 75 and jitter 5 on an absent
analysis keep the discoverability score inside 30..100, and the classifier
ignores the duration list. -/
theorem C8_witness :
    analyze_genre_characteristics "" 0 0 [] none
        = analyze_genre_characteristics "" 0 0 [120000] none
    ∧ 30 ≤ calculate_discoverability none [] 75 5
    ∧ calculate_discoverability none [] 75 5 ≤ 100 :=
  C8_classifier_pure_jitter_bounded "" 0 0 [] [120000] none none [] 75 5
    (by norm_num) (by norm_num) (by norm_num) (by norm_num)

/-- Claim C9: in every state reachable by the collection operations from the
empty initial state, the liked-artists id set is exactly the set of
`artist_id` fields of the liked-artists data records. -/
theorem C9_liked_set_tracks_data (s : Prefs) (h : Reachable s) :
    s.liked_artists = (s.liked_artists_data.map (fun a => a.artist_id)).toFinset := by
  induction h with
  | init => simp [initPrefs]
  | heart s0 inp now _ ih =>
    by_cases hval : inp.artist_id = "" ∨ inp.artist_name = ""
    · simpa [heart_artist, hval] using ih
    · by_cases hdup : s0.liked_artists_data.any (fun a => a.artist_id = inp.artist_id) = true
      · simpa [heart_artist, hval, hdup] using ih
      · simp only [heart_artist, if_neg hval, hdup, if_false, Bool.false_eq_true]
        ext x
        simp [ih]
        aesop
  | unlike s0 aid aname now _ ih =>
    by_cases hval : aid = ""
    · simpa [unlike_artist, hval] using ih
    · simp only [unlike_artist, if_neg hval]
      split <;>
      · ext x
        simp only [Finset.mem_erase, ih, List.mem_toFinset, List.mem_map, List.mem_filter,
          decide_not, Bool.not_eq_eq_eq_not, Bool.not_true, decide_eq_false_iff_not]
        constructor
        · rintro ⟨hne, a, ha, rfl⟩
          exact ⟨a, ⟨ha, hne⟩, rfl⟩
        · rintro ⟨a, ⟨ha, hne⟩, rfl⟩
          exact ⟨hne, a, ha, rfl⟩
  | clear s0 _ _ => simp [clear_collection, initPrefs]

/-- Witness for C9 at a concrete reachable state: after liking "A1" from the
empty store, the id set matches the data records. -/
theorem C9_witness :
    (heart_artist initPrefs
        { artist_id := "A1", artist_name := "Artist One", genres := ["pop"], image := none }
        "t0").1.liked_artists
      = ((heart_artist initPrefs
          { artist_id := "A1", artist_name := "Artist One", genres := ["pop"], image := none }
          "t0").1.liked_artists_data.map (fun a => a.artist_id)).toFinset :=
  C9_liked_set_tracks_data _ (Reachable.heart _ _ _ Reachable.init)

/-- Running a batch of at most `m - pre.length` requests, all timestamped at
or before `now` and inside the window as seen from `now`, on a tracker whose
entry for `ip` is `pre` (itself all in-window), admits every request and ends
with exactly `pre ++ reqs` recorded for `ip`. -/
theorem runAdmits_all_admitted (m : ℕ) (w now : ℚ) (ip : ClientId) :
    ∀ (reqs pre : List ℚ) (tr : ClientId → List ℚ),
      tr ip = pre →
      pre.length + reqs.length ≤ m →
      (∀ t ∈ pre, t ≤ now ∧ now - t < w) →
      (∀ t ∈ reqs, t ≤ now ∧ now - t < w) →
      (runAdmits m w tr ip reqs).1 ip = pre ++ reqs ∧ (runAdmits m w tr ip reqs).2 = true := by
  intro reqs
  induction reqs with
  | nil =>
    intro pre tr htr _ _ _
    simpa [runAdmits] using htr
  | cons t rest ih =>
    intro pre tr htr hlen hpre hreqs
    have ht := hreqs t (by simp)
    have hkeep : (tr ip).filter (fun s => decide (t - s < w)) = pre := by
      rw [htr]
      apply List.filter_eq_self.mpr
      intro x hx
      have hx2 := hpre x hx
      have hlt : t - x < w := by linarith [ht.1, hx2.2]
      simpa using hlt
    have hallow : ¬ m ≤ pre.length := by
      simp only [List.length_cons] at hlen
      omega
    have hstep : rate_limit m w tr ip t =
        { tracker := updateTracker tr ip (pre ++ [t]), allowed := true, retryAfter := 0 } := by
      simp only [rate_limit, hkeep, if_neg hallow]
    have htr2 : updateTracker tr ip (pre ++ [t]) ip = pre ++ [t] := by
      simp [updateTracker]
    have hrec := ih (pre ++ [t]) (updateTracker tr ip (pre ++ [t])) htr2
      (by simp only [List.length_append, List.length_cons, List.length_nil] at hlen ⊢; omega)
      (by intro x hx
          rcases List.mem_append.mp hx with hx1 | hx1
          · exact hpre x hx1
          · rcases List.mem_singleton.mp hx1 with rfl
            exact ht)
      (fun x hx => hreqs x (List.mem_cons_of_mem t hx))
    refine ⟨?_, ?_⟩
    · show (runAdmits m w tr ip (t :: rest)).1 ip = pre ++ t :: rest
      simp only [runAdmits, hstep]
      rw [hrec.1]
      simp
    · show (runAdmits m w tr ip (t :: rest)).2 = true
      simp only [runAdmits, hstep]
      rw [hrec.2]
      simp

/-- Claim C1: each admission check keeps exactly the in-window timestamps and
admits iff fewer than `max` remain; consequently, after `max` admitted
requests all lying within `window` of the next request time `now`, that
`(max+1)`th request is rejected with `retryAfter = window - (now - oldest)`,
which is positive. -/
theorem C1_rate_limiter (m : ℕ) (w now : ℚ) (ip : ClientId) (reqs : List ℚ)
    (hm : 0 < m) (hlen : reqs.length = m)
    (hreqs : ∀ t ∈ reqs, t ≤ now ∧ now - t < w) :
    (∀ (tr : ClientId → List ℚ) (c : ClientId) (t : ℚ),
        (rate_limit m w tr c t).tracker c
            = ((tr c).filter (fun s => decide (t - s < w))
                ++ (if (rate_limit m w tr c t).allowed then [t] else []))
        ∧ ((rate_limit m w tr c t).allowed = true
            ↔ ((tr c).filter (fun s => decide (t - s < w))).length < m))
    ∧ (runAdmits m w (fun _ => []) ip reqs).2 = true
    ∧ (rate_limit m w (runAdmits m w (fun _ => []) ip reqs).1 ip now).allowed = false
    ∧ (rate_limit m w (runAdmits m w (fun _ => []) ip reqs).1 ip now).retryAfter
        = w - (now - reqs.headD 0)
    ∧ 0 < (rate_limit m w (runAdmits m w (fun _ => []) ip reqs).1 ip now).retryAfter := by
  obtain ⟨hfinal, hall⟩ := runAdmits_all_admitted m w now ip reqs [] (fun _ => []) rfl
    (by simpa using Nat.le_of_eq hlen) (by simp) hreqs
  rw [List.nil_append] at hfinal
  have hfilter : reqs.filter (fun s => decide (now - s < w)) = reqs :=
    List.filter_eq_self.mpr (fun x hx => by simpa using (hreqs x hx).2)
  have hreject : m ≤ (reqs.filter (fun s => decide (now - s < w))).length := by
    rw [hfilter, hlen]
  have hlimit : rate_limit m w (runAdmits m w (fun _ => []) ip reqs).1 ip now =
      { tracker := updateTracker (runAdmits m w (fun _ => []) ip reqs).1 ip
          (reqs.filter (fun s => decide (now - s < w)))
        allowed := false
        retryAfter := w - (now - (reqs.filter (fun s => decide (now - s < w))).headD 0) } := by
    simp only [rate_limit, hfinal, if_pos hreject]
  refine ⟨?_, hall, ?_, ?_, ?_⟩
  · intro tr c t
    constructor
    · by_cases hc : m ≤ ((tr c).filter (fun s => decide (t - s < w))).length
      · simp [rate_limit, if_pos hc, updateTracker]
      · simp [rate_limit, if_neg hc, updateTracker]
    · by_cases hc : m ≤ ((tr c).filter (fun s => decide (t - s < w))).length
      · simp [rate_limit, if_pos hc]
        omega
      · simp [rate_limit, if_neg hc]
        omega
  · rw [hlimit]
  · rw [hlimit, hfilter]
  · rw [hlimit, hfilter]
    obtain ⟨t0, rest, rfl⟩ : ∃ t0 rest, reqs = t0 :: rest := by
      cases reqs with
      | nil => simp at hlen; omega
      | cons a l => exact ⟨a, l, rfl⟩
    have h0 := hreqs t0 (by simp)
    simp only [List.headD_cons]
    linarith [h0.2]

/-- Witness for C1: with max 2, window 10, two admitted requests at times 1
and 2, the third request at time 3 is rejected with positive retry hint. -/
theorem C1_witness :
    (rate_limit 2 10 (runAdmits 2 10 (fun _ => []) "client" [1, 2]).1 "client" 3).allowed = false
    ∧ 0 < (rate_limit 2 10 (runAdmits 2 10 (fun _ => []) "client" [1, 2]).1 "client" 3).retryAfter :=
  ⟨(C1_rate_limiter 2 10 3 "client" [1, 2] (by norm_num) (by norm_num)
      (by intro t ht
          simp only [List.mem_cons, List.mem_singleton] at ht
          rcases ht with rfl | rfl | h
          · constructor <;> norm_num
          · constructor <;> norm_num
          · simp at h)).2.2.1,
   (C1_rate_limiter 2 10 3 "client" [1, 2] (by norm_num) (by norm_num)
      (by intro t ht
          simp only [List.mem_cons, List.mem_singleton] at ht
          rcases ht with rfl | rfl | h
          · constructor <;> norm_num
          · constructor <;> norm_num
          · simp at h)).2.2.2.2⟩
